import Mathlib

/-!
Shallow embedding of the core of the v2h-home-assistant integration:

* `custom_components/v2h_nichicon/v2h_api.py` — the ECHONET Lite frame
  builder (`_build_get_frame`) and the realtime-response decoder
  (`_parse_realtime_response`).
* `custom_components/v2h_nichicon/nissan_recovery.py` — the recovery
  supervisor state machine (`NissanRecoveryController.tick`, `_run_steps`,
  `_press_button`, and the decision helpers).

Modelling conventions:
* Bytes are `Nat` values; a UDP datagram is a `List Nat` of bytes.
* Python float power values are modelled as exact rationals; every
  comparison the code performs on them (`> 0`, `>= threshold`, `> 0.05`)
  is exact at the values involved.
* Timestamps (`datetime`) are `Nat` instants and `timedelta` durations are
  `Nat`; the comparison `now - t >= d` on datetimes is embedded as
  `t + d <= now`, which is the same relation on the underlying time line.
* Fallible Python operations (`int(s, 16)` raising `ValueError`) become
  `Option`; the `try/except` blocks of the decoder become `Option` matches.
-/

namespace V2HApi

/-- hexDigitChar n is the lowercase hex digit Python uses for a nibble
`n < 16`: digits `0`-`9` then `a`-`f`. This models `bytes.hex()` output. -/
def hexDigitChar (n : Nat) : Char :=
  match n with
  | 0 => '0' | 1 => '1' | 2 => '2' | 3 => '3'
  | 4 => '4' | 5 => '5' | 6 => '6' | 7 => '7'
  | 8 => '8' | 9 => '9' | 10 => 'a' | 11 => 'b'
  | 12 => 'c' | 13 => 'd' | 14 => 'e' | 15 => 'f'
  | _ => '0'

/-- byteToHex b is the two-character lowercase hex rendering of one byte,
as produced for each byte by Python `bytes.hex()`. -/
def byteToHex (b : Nat) : List Char :=
  [hexDigitChar (b / 16 % 16), hexDigitChar (b % 16)]

/-- bytesToHex data is `data.hex()`: the concatenation of the two-digit
lowercase hex renderings of the bytes. -/
def bytesToHex (data : List Nat) : List Char :=
  data.flatMap byteToHex

/-- hexCharVal c is the value of one hex digit accepted by Python
`int(s, 16)` (decimal digits, lowercase and uppercase letters), or `none`
for a character that makes `int` raise `ValueError`. -/
def hexCharVal (c : Char) : Option Nat :=
  if 48 ≤ c.toNat ∧ c.toNat ≤ 57 then some (c.toNat - 48)
  else if 97 ≤ c.toNat ∧ c.toNat ≤ 102 then some (c.toNat - 87)
  else if 65 ≤ c.toNat ∧ c.toNat ≤ 70 then some (c.toNat - 55)
  else none

/-- parseHexDigits cs acc folds hex digits into an accumulator, failing on
the first non-digit, exactly as `int(s, 16)` consumes a nonempty string. -/
def parseHexDigits : List Char → Nat → Option Nat
  | [], acc => some acc
  | c :: rest, acc =>
    match hexCharVal c with
    | none => none
    | some v => parseHexDigits rest (16 * acc + v)

/-- parseHexNat cs is Python `int(s, 16)` on the string `cs`: `none` when
the string is empty or holds a non-hex character (a `ValueError`), the
parsed value otherwise. -/
def parseHexNat (cs : List Char) : Option Nat :=
  if cs.isEmpty then none else parseHexDigits cs 0

/-- findSub2 c1 c2 cs is Python `s.index(sub)` for the two-character
substring `c1 c2`: the index of its first occurrence, or `none` when the
`in` test fails. -/
def findSub2 (c1 c2 : Char) : List Char → Option Nat
  | [] => none
  | [_] => none
  | a :: b :: rest =>
    if a = c1 ∧ b = c2 then some 0
    else (findSub2 c1 c2 (b :: rest)).map (· + 1)

/-- pySlice cs i j is the Python string slice `s[i:j]` for `i ≤ j`:
it clamps at the end of the string instead of failing. -/
def pySlice (cs : List Char) (i j : Nat) : List Char :=
  (cs.drop i).take (j - i)

/-- scanPropRaw hx c2 embeds the integer level of one of the two parsing
blocks of `_parse_realtime_response`: search the hex string for the
two-character substring `d‹c2›`; at its first occurrence read two hex
chars as PDC, then `2 * PDC` hex chars as EDT, as a big-endian integer.
Any `int` failure inside the `try` leaves the value `None`, embedded as
`none`. -/
def scanPropRaw (hx : List Char) (c2 : Char) : Option Nat :=
  match findSub2 'd' c2 hx with
  | none => none
  | some idx =>
    match parseHexNat (pySlice hx (idx + 2) (idx + 4)) with
    | none => none
    | some pdc => parseHexNat (pySlice hx (idx + 4) (idx + 4 + 2 * pdc))

/-- scanProp hx c2 finishes the parsing block: the parsed integer divided
by 1000, the division `int(edt_hex, 16) / 1000.0` of the code. -/
def scanProp (hx : List Char) (c2 : Char) : Option ℚ :=
  (scanPropRaw hx c2).map (fun v => (v : ℚ) / 1000)

/-- deriveMode c d is the mode derivation at the end of
`_parse_realtime_response`: charging present and positive, else
discharging present and positive, else idle. -/
def deriveMode (c d : Option ℚ) : String :=
  match c with
  | some x =>
    if 0 < x then "charging"
    else
      match d with
      | some y => if 0 < y then "discharging" else "idle"
      | none => "idle"
  | none =>
    match d with
    | some y => if 0 < y then "discharging" else "idle"
    | none => "idle"

/-- V2HStatus is the snapshot dataclass of `v2h_api.py` (the
`updated_at` wall-clock stamp, irrelevant to the decoded values, is
omitted). -/
structure V2HStatus where
  charging_power_kw : Option ℚ
  discharging_power_kw : Option ℚ
  mode : Option String
  raw_hex : List Char
  deriving DecidableEq, Repr

/-- parseRealtimeResponse data embeds `_parse_realtime_response`: render
the datagram as a hex string, scan it for the substrings `d3` and `d4`,
decode each as PDC-prefixed scaled data, and derive the mode. -/
def parseRealtimeResponse (data : List Nat) : V2HStatus :=
  let hx := bytesToHex data
  let charging := scanProp hx '3'
  let discharging := scanProp hx '4'
  { charging_power_kw := charging
    discharging_power_kw := discharging
    mode := some (deriveMode charging discharging)
    raw_hex := hx }

/-- propsOf epcs builds the per-property request bytes of
`_build_get_frame`: the pairs `EPC, 0x00` in order. A `bytearray` entry
out of byte range raises, embedded as `none`. -/
def propsOf : List Nat → Option (List Nat)
  | [] => some []
  | e :: rest =>
    if e < 256 then (propsOf rest).map (fun ps => e :: 0 :: ps) else none

/-- nextTid tid embeds `_next_tid`: increment the 16-bit counter with
wraparound and return the new value. -/
def nextTid (tid : Nat) : Nat :=
  (tid + 1) % 65536

/-- buildGetFrame tid epcs embeds `_build_get_frame` called on a client
whose transaction counter holds `tid`: the header with markers
`0x10 0x81`, the incremented transaction id split big-endian, the fixed
source object `0E F0 01`, the fixed destination object `02 7E 01`, the
GET service code `0x62`, the property count, then the property pairs. -/
def buildGetFrame (tid : Nat) (epcs : List Nat) : Option (List Nat) :=
  let t := nextTid tid
  let tidHi := t / 256 % 256
  let tidLo := t % 256
  match propsOf epcs with
  | none => none
  | some props =>
    if epcs.length < 256 then
      some ([0x10, 0x81, tidHi, tidLo, 0x0E, 0xF0, 0x01, 0x02, 0x7E, 0x01,
             0x62, epcs.length] ++ props)
    else none

end V2HApi

namespace NissanRecovery

/-- RecAction is one observable actuator effect of a supervisor tick:
a Home Assistant `button.press` service call on a concrete entity, or the
best-effort optional-timer toggling. -/
inductive RecAction where
  | press (entityId : String)
  | toggleTimers
  deriving DecidableEq, Repr

/-! RecoveryStep collects the values of the `RecoveryStep(str, Enum)`
class of `nissan_recovery.py`. The step field of the controller is a
string because the code concatenates suffixes onto enum values to make
the sentinel sub-states. -/
namespace RecoveryStep

def IDLE : String := "idle"

def STEP1_TIMER_TOGGLE : String := "step1_timer_toggle"

def STEP2_START_DISCHARGE : String := "step2_start_discharge"

def STEP3_CONNECTOR_RESET : String := "step3_connector_reset"

def STEP4_START_CHARGE : String := "step4_start_charge"

def DONE : String := "done"

def FAILED : String := "failed"

end RecoveryStep

/-- NissanObservedState is the dataclass of sensor-derived inputs fed to
each tick. -/
structure NissanObservedState where
  connected : Bool
  cable_locked : Bool
  soc : Option ℚ
  charging_kw : ℚ
  discharging_kw : ℚ
  grid_sold_kw : ℚ
  grid_bought_kw : ℚ
  deriving DecidableEq, Repr

/-- RecoveryConfig is the thresholds-and-durations dataclass; durations
are abstract time units. -/
structure RecoveryConfig where
  chg_on_kw : ℚ
  dis_on_kw : ℚ
  stuck_after : Nat
  cooldown_after_success : Nat
  cooldown_after_failure : Nat
  wait_after_step1 : Nat
  wait_after_step2 : Nat
  wait_between_unlock_lock : Nat
  wait_after_step3 : Nat
  step4_charge_duration : Nat
  wait_after_step4_stop : Nat
  max_attempts : Nat
  deriving DecidableEq, Repr

/-- RecoveryState is the mutable per-controller state of
`NissanRecoveryController`: step string, attempt counter, and the three
optional timestamps. -/
structure RecoveryState where
  step : String
  attempt : Nat
  since_idle_wrong : Option Nat
  next_action_at : Option Nat
  cooldown_until : Option Nat
  deriving DecidableEq, Repr

/-- initialState is the state set up by the constructor. -/
def initialState : RecoveryState :=
  { step := RecoveryStep.IDLE
    attempt := 0
    since_idle_wrong := none
    next_action_at := none
    cooldown_until := none }

/-- svcLookup services logical is `self.services.get(logical)` on the
mapping from logical action names to entity ids, modelled as an
association list. -/
def svcLookup (services : List (String × String)) (logical : String) :
    Option String :=
  (services.find? (fun p => p.1 = logical)).map (·.2)

/-- pressButton services logical embeds `_press_button`: when the lookup
yields no entity id (or a falsy empty one) it returns without any service
call; otherwise it issues one `button.press` call on the entity. -/
def pressButton (services : List (String × String)) (logical : String) :
    List RecAction :=
  match svcLookup services logical with
  | none => []
  | some entityId => if entityId = "" then [] else [RecAction.press entityId]

/-- Modelled from the spec: the body of `_toggle_optional_timers` is not
present under `src/` (the file ends inside its header). Per the spec it is
a best-effort toggle of optional timer settings whose failures are
ignored, so it contributes one abstract action and touches no supervisor
state. -/
def toggleOptionalTimers : List RecAction :=
  [RecAction.toggleTimers]

/-- Modelled from the spec: the body of `_reset` is not present under
`src/`. Per the spec gate 1 it abandons any in-progress recovery, clears
the attempt counter and the pending timestamps, and returns to Idle; the
cooldown window is kept, since the spec has Done and Failed re-enter Idle
under cooldown. -/
def resetState (s : RecoveryState) : RecoveryState :=
  { s with
    step := RecoveryStep.IDLE
    attempt := 0
    since_idle_wrong := none
    next_action_at := none }

/-- Modelled from the spec: the body of `_enter_cooldown` is not present
under `src/`. Per the spec it opens a cooldown window from now of the
failure duration (longer) or the success duration (shorter). -/
def enterCooldown (cfg : RecoveryConfig) (s : RecoveryState) (now : Nat)
    (failure : Bool) : RecoveryState :=
  { s with
    cooldown_until :=
      some (now + (if failure then cfg.cooldown_after_failure
                   else cfg.cooldown_after_success)) }

/-- isActive cfg obs embeds `_is_active`: charging or discharging power at
or above its on-threshold. -/
def isActive (cfg : RecoveryConfig) (obs : NissanObservedState) : Bool :=
  decide (cfg.chg_on_kw ≤ obs.charging_kw) ||
    decide (cfg.dis_on_kw ≤ obs.discharging_kw)

/-- shouldBeActive obs embeds `_should_be_active`: grid selling or buying
above 0.05 kW (the literal 0.05 as the rational one twentieth). -/
def shouldBeActive (obs : NissanObservedState) : Bool :=
  decide (mkRat 1 20 < obs.grid_sold_kw) ||
    decide (mkRat 1 20 < obs.grid_bought_kw)

/-- inCooldown s now embeds `in_cooldown`: a cooldown deadline is set and
now is strictly before it. -/
def inCooldown (s : RecoveryState) (now : Nat) : Bool :=
  match s.cooldown_until with
  | none => false
  | some c => decide (now < c)

/-- waitGate s now is the leading guard of `_run_steps`: an action time is
scheduled and now is strictly before it. -/
def waitGate (s : RecoveryState) (now : Nat) : Bool :=
  match s.next_action_at with
  | none => false
  | some t => decide (now < t)

/-- runSteps embeds `_run_steps`: the wait gate, the any-time success
check, then one branch per step string, each issuing its single actuator
command, scheduling the next action time and advancing the step; an
unrecognized step resets safely. -/
def runSteps (cfg : RecoveryConfig) (supportsTimerToggles : Bool)
    (services : List (String × String)) (s : RecoveryState)
    (obs : NissanObservedState) (now : Nat) :
    RecoveryState × List RecAction :=
  if waitGate s now then (s, [])
  else if isActive cfg obs then
    (enterCooldown cfg { s with step := RecoveryStep.DONE } now false, [])
  else if s.step = RecoveryStep.STEP1_TIMER_TOGGLE then
    ({ s with
        next_action_at := some (now + cfg.wait_after_step1)
        step := RecoveryStep.STEP2_START_DISCHARGE },
      toggleOptionalTimers)
  else if s.step = RecoveryStep.STEP2_START_DISCHARGE then
    ({ s with
        next_action_at := some (now + cfg.wait_after_step2)
        step := RecoveryStep.STEP3_CONNECTOR_RESET },
      pressButton services "start_discharge")
  else if s.step = RecoveryStep.STEP3_CONNECTOR_RESET then
    ({ s with
        next_action_at := some (now + cfg.wait_between_unlock_lock)
        step := RecoveryStep.STEP3_CONNECTOR_RESET ++ "_LOCK" },
      pressButton services "unlock_connector")
  else if s.step = RecoveryStep.STEP3_CONNECTOR_RESET ++ "_LOCK" then
    ({ s with
        next_action_at := some (now + cfg.wait_after_step3)
        step := RecoveryStep.STEP4_START_CHARGE },
      pressButton services "lock_connector")
  else if s.step = RecoveryStep.STEP4_START_CHARGE then
    ({ s with
        next_action_at := some (now + cfg.step4_charge_duration)
        step := RecoveryStep.STEP4_START_CHARGE ++ "_STOP" },
      pressButton services "start_charge")
  else if s.step = RecoveryStep.STEP4_START_CHARGE ++ "_STOP" then
    ({ s with
        next_action_at := some (now + cfg.wait_after_step4_stop)
        step := if supportsTimerToggles then RecoveryStep.STEP1_TIMER_TOGGLE
                else RecoveryStep.STEP2_START_DISCHARGE },
      pressButton services "stop")
  else (resetState s, [])

/-- tick embeds `NissanRecoveryController.tick`: the connected gate, the
cable-lock gate, the cooldown gate, stuck tracking, the two Idle branches
(no-op, or attempt increment with failure cutoff and step entry), then the
step machine. -/
def tick (cfg : RecoveryConfig) (supportsTimerToggles : Bool)
    (services : List (String × String)) (s : RecoveryState)
    (obs : NissanObservedState) (now : Nat) :
    RecoveryState × List RecAction :=
  if !obs.connected then (resetState s, [])
  else if !obs.cable_locked then (s, pressButton services "lock_connector")
  else if inCooldown s now then (s, [])
  else
    let active := isActive cfg obs
    let sba := shouldBeActive obs
    let siw : Option Nat :=
      if sba && !active then
        match s.since_idle_wrong with
        | none => some now
        | some t => some t
      else none
    let s1 := { s with since_idle_wrong := siw }
    let stuck := sba && !active &&
      (match s1.since_idle_wrong with
       | none => false
       | some t => decide (t + cfg.stuck_after ≤ now))
    if s1.step = RecoveryStep.IDLE ∧ stuck = false then (s1, [])
    else if s1.step = RecoveryStep.IDLE ∧ stuck = true then
      let a := s1.attempt + 1
      if cfg.max_attempts < a then
        (enterCooldown cfg
          { s1 with attempt := a, step := RecoveryStep.FAILED } now true, [])
      else
        runSteps cfg supportsTimerToggles services
          { s1 with
              attempt := a
              step := if supportsTimerToggles then
                        RecoveryStep.STEP1_TIMER_TOGGLE
                      else RecoveryStep.STEP2_START_DISCHARGE
              next_action_at := some now }
          obs now
    else runSteps cfg supportsTimerToggles services s1 obs now

end NissanRecovery

/-!
Concrete fixtures used by the closed theorems and witnesses below.
-/

namespace V2HApi

/-- respBadHeaderTrunc is a response datagram whose two header marker
bytes are both wrong (0x00, 0x00 instead of 0x10, 0x81) and whose single
property declares PDC = 2 with only one EDT byte present. -/
def respBadHeaderTrunc : List Nat := [0x00, 0x00, 0xD3, 0x02, 0x01]

/-- respTruncatedD3 is a response datagram with correct markers whose
property EPC 0xD3 declares PDC = 2 but only one EDT byte remains. -/
def respTruncatedD3 : List Nat :=
  [0x10, 0x81, 0x00, 0x01, 0x02, 0x7E, 0x01, 0x0E, 0xF0, 0x01, 0x72, 0x01,
   0xD3, 0x02, 0x01]

/-- respD3Half is the well-formed response frame carrying exactly one
property, EPC 0xD3 with PDC = 2 and EDT = 0x01F4 (500 W). -/
def respD3Half : List Nat :=
  [0x10, 0x81, 0x00, 0x01, 0x02, 0x7E, 0x01, 0x0E, 0xF0, 0x01, 0x72, 0x01,
   0xD3, 0x02, 0x01, 0xF4]

/-- respD4OnlyTidD3 is a well-formed response frame with transaction id
0x0D35 carrying exactly one property, EPC 0xD4 with PDC = 2 and
EDT = 0x01F4; it has no 0xD3 property, but its hex rendering contains the
substring d3 straddling the transaction id bytes. -/
def respD4OnlyTidD3 : List Nat :=
  [0x10, 0x81, 0x0D, 0x35, 0x02, 0x7E, 0x01, 0x0E, 0xF0, 0x01, 0x72, 0x01,
   0xD4, 0x02, 0x01, 0xF4]

end V2HApi

namespace NissanRecovery

/-- cfgW is a concrete configuration used by the witnesses: the default
dataclass values, durations in seconds. -/
def cfgW : RecoveryConfig :=
  { chg_on_kw := mkRat 1 5
    dis_on_kw := mkRat 1 5
    stuck_after := 180
    cooldown_after_success := 600
    cooldown_after_failure := 1800
    wait_after_step1 := 60
    wait_after_step2 := 60
    wait_between_unlock_lock := 15
    wait_after_step3 := 60
    step4_charge_duration := 600
    wait_after_step4_stop := 10
    max_attempts := 2 }

/-- srvW is a concrete services mapping used by the witnesses. -/
def srvW : List (String × String) :=
  [("lock_connector", "button.lock"),
   ("unlock_connector", "button.unlock"),
   ("start_discharge", "button.start_discharge"),
   ("start_charge", "button.start_charge"),
   ("stop", "button.stop")]

/-- obsActiveW observes a connected, locked, actively charging device
with grid flow. -/
def obsActiveW : NissanObservedState :=
  { connected := true, cable_locked := true, soc := none,
    charging_kw := 1, discharging_kw := 0, grid_sold_kw := 1,
    grid_bought_kw := 0 }

/-- obsStuckW observes a connected, locked, inactive device while the
grid is selling 1 kW. -/
def obsStuckW : NissanObservedState :=
  { connected := true, cable_locked := true, soc := none,
    charging_kw := 0, discharging_kw := 0, grid_sold_kw := 1,
    grid_bought_kw := 0 }

/-- sStep2W is a mid-recovery state waiting in the start-discharge step
with an action scheduled at time 100. -/
def sStep2W : RecoveryState :=
  { step := RecoveryStep.STEP2_START_DISCHARGE, attempt := 1,
    since_idle_wrong := some 0, next_action_at := some 100,
    cooldown_until := none }

/-- sFailedW is a state in the transient Failed marker whose failure
cooldown expires at time 500. -/
def sFailedW : RecoveryState :=
  { step := RecoveryStep.FAILED, attempt := 3, since_idle_wrong := some 0,
    next_action_at := none, cooldown_until := some 500 }

/-- sDoneW is a state in the transient Done marker whose success cooldown
expires at time 700. -/
def sDoneW : RecoveryState :=
  { step := RecoveryStep.DONE, attempt := 1, since_idle_wrong := none,
    next_action_at := some 100, cooldown_until := some 700 }

/-- sIdleMaxW is an Idle state whose attempt counter already equals the
maximum of two attempts, with the stuck condition having begun at
time 10 and no cooldown pending. -/
def sIdleMaxW : RecoveryState :=
  { step := RecoveryStep.IDLE, attempt := 2, since_idle_wrong := some 10,
    next_action_at := none, cooldown_until := none }

end NissanRecovery

open V2HApi NissanRecovery

/-!
Theorems settling the claims.
-/

/-- C1: the spec requires decoding to fail with InvalidHeader on a marker
mismatch and with TruncatedFrame when a declared property length runs past
the buffer, never yielding a partially decoded property. The code instead
accepts a datagram whose both marker bytes are wrong and whose property
declares two data bytes with only one present, and returns a snapshot
with a partially decoded charging value of 0.001 and mode charging. -/
theorem c1_decoder_accepts_invalid_header_and_truncated_property :
    (parseRealtimeResponse respBadHeaderTrunc).charging_power_kw =
        some ((1 : ℚ) / 1000) ∧
      (parseRealtimeResponse respBadHeaderTrunc).discharging_power_kw =
        none ∧
      (parseRealtimeResponse respBadHeaderTrunc).mode = some "charging" := by
  have h3 : scanPropRaw (bytesToHex respBadHeaderTrunc) '3' = some 1 := by
    decide
  have h4 : scanPropRaw (bytesToHex respBadHeaderTrunc) '4' = none := by
    decide
  refine ⟨?_, ?_, ?_⟩ <;>
    simp [parseRealtimeResponse, scanProp, h3, h4, deriveMode]

/-- C2: the spec requires the scaled-property decoder to locate the first
Property entry of the frame whose EPC matches and to report absence when
no such property exists. On a well-formed frame that carries only a 0xD4
property but whose transaction id bytes 0x0D 0x35 make the substring d3
appear in the hex rendering, the code reports a huge spurious charging
value (and mode charging) instead of absence; the positive part of the
claim, that a frame with EPC 0xD3, PDC = 2, EDT = 0x01F4 decodes to 0.5,
does hold. -/
theorem c2_substring_scan_misreads_frame :
    (parseRealtimeResponse respD4OnlyTidD3).charging_power_kw =
        some ((0x27e010ef0017201d40201f4 : ℚ) / 1000) ∧
      (parseRealtimeResponse respD4OnlyTidD3).discharging_power_kw =
        some ((500 : ℚ) / 1000) ∧
      (parseRealtimeResponse respD4OnlyTidD3).mode = some "charging" ∧
      (parseRealtimeResponse respD3Half).charging_power_kw =
        some ((1 : ℚ) / 2) := by
  have h3 : scanPropRaw (bytesToHex respD4OnlyTidD3) '3' =
      some 0x27e010ef0017201d40201f4 := by decide
  have h4 : scanPropRaw (bytesToHex respD4OnlyTidD3) '4' = some 500 := by
    decide
  have g3 : scanPropRaw (bytesToHex respD3Half) '3' = some 500 := by decide
  refine ⟨?_, ?_, ?_, ?_⟩ <;>
    simp [parseRealtimeResponse, scanProp, h3, h4, g3, deriveMode] <;>
    norm_num

/-- C3: the spec requires any decode failure to surface to the caller of
get_realtime_status as an error, never a snapshot. On a response whose
0xD3 property declares PDC = 2 with only one EDT byte remaining, which
the spec decoder rejects as TruncatedFrame, the code instead returns a
snapshot carrying the partially decoded value 0.001 and mode charging. -/
theorem c3_decode_failure_swallowed_into_snapshot :
    (parseRealtimeResponse respTruncatedD3).charging_power_kw =
        some ((1 : ℚ) / 1000) ∧
      (parseRealtimeResponse respTruncatedD3).mode = some "charging" := by
  have h3 : scanPropRaw (bytesToHex respTruncatedD3) '3' = some 1 := by
    decide
  have h4 : scanPropRaw (bytesToHex respTruncatedD3) '4' = none := by decide
  refine ⟨?_, ?_⟩ <;>
    simp [parseRealtimeResponse, scanProp, h3, h4, deriveMode]

/-- C4 counterexample: a tick that detects activity mid-recovery leaves
the supervisor in Done, but the very next tick, falling inside the fresh
success cooldown, keeps the step Done instead of re-entering Idle, so
Done is not left on the very next tick as the claim states. -/
theorem c4_done_persists_on_next_tick :
    (tick cfgW false srvW sStep2W obsActiveW 100).1.step =
        RecoveryStep.DONE ∧
      (tick cfgW false srvW (tick cfgW false srvW sStep2W obsActiveW 100).1
            obsStuckW 102).1.step ≠ RecoveryStep.IDLE := by
  refine ⟨by decide, by decide⟩

/-- C4 amended: Done and Failed persist through the cooldown window
rather than being left on the very next tick. Three parts: while
connected and cable locked, every tick strictly before the cooldown
deadline leaves a Done or Failed state unchanged and issues nothing;
a stuck tick in Idle that pushes the attempt counter past the configured
maximum enters Failed together with the longer failure cooldown, issuing
nothing; and the first tick at or after cooldown expiry with the device
connected, cable locked, no pending wait and the device not active
re-enters Idle through the safe reset of an unrecognized step, which
clears the attempt counter. -/
theorem c4_done_failed_transient_via_cooldown :
    (∀ (cfg : RecoveryConfig) (stt : Bool) (srv : List (String × String))
      (s : RecoveryState) (obs : NissanObservedState) (now c : Nat),
      obs.connected = true → obs.cable_locked = true →
      (s.step = RecoveryStep.DONE ∨ s.step = RecoveryStep.FAILED) →
      s.cooldown_until = some c → now < c →
      tick cfg stt srv s obs now = (s, [])) ∧
      (∀ (cfg : RecoveryConfig) (stt : Bool) (srv : List (String × String))
        (s : RecoveryState) (obs : NissanObservedState) (now t0 : Nat),
        obs.connected = true → obs.cable_locked = true →
        inCooldown s now = false →
        s.step = RecoveryStep.IDLE →
        s.since_idle_wrong = some t0 →
        t0 + cfg.stuck_after ≤ now →
        mkRat 1 20 < obs.grid_sold_kw →
        obs.charging_kw < cfg.chg_on_kw →
        obs.discharging_kw < cfg.dis_on_kw →
        cfg.max_attempts < s.attempt + 1 →
        tick cfg stt srv s obs now =
          ({ s with
              attempt := s.attempt + 1
              step := RecoveryStep.FAILED
              cooldown_until :=
                some (now + cfg.cooldown_after_failure) }, [])) ∧
      (∀ (cfg : RecoveryConfig) (stt : Bool) (srv : List (String × String))
        (s : RecoveryState) (obs : NissanObservedState) (now c : Nat),
        obs.connected = true → obs.cable_locked = true →
        (s.step = RecoveryStep.DONE ∨ s.step = RecoveryStep.FAILED) →
        s.cooldown_until = some c → c ≤ now →
        (s.next_action_at = none ∨
          ∃ u, s.next_action_at = some u ∧ u ≤ now) →
        obs.charging_kw < cfg.chg_on_kw →
        obs.discharging_kw < cfg.dis_on_kw →
        tick cfg stt srv s obs now = (resetState s, []) ∧
          (resetState s).step = RecoveryStep.IDLE ∧
          (resetState s).attempt = 0) := by
  refine ⟨?_, ?_, ?_⟩
  · intro cfg stt srv s obs now c hconn hlock _hstep hcd hlt
    unfold tick
    rw [hconn, hlock]
    simp [inCooldown, hcd, hlt]
  · intro cfg stt srv s obs now t0 hconn hlock hcool hstep hsiw ht hsold
      hchg hdis hmax
    obtain ⟨st, att, siw, naa, cdu⟩ := s
    dsimp only at hstep hsiw hcool ⊢
    subst hstep hsiw
    have hact : isActive cfg obs = false := by
      simp [isActive, not_le.mpr hchg, not_le.mpr hdis]
    have hsba : shouldBeActive obs = true := by
      simp [shouldBeActive, hsold]
    simp [tick, enterCooldown, hconn, hlock, hcool, hact, hsba, ht, hmax]
  · intro cfg stt srv s obs now c hconn hlock hstep hcd hexp hwait hchg hdis
    obtain ⟨st, att, siw, naa, cdu⟩ := s
    simp only [RecoveryState.mk.injEq] at hcd
    dsimp only at hstep hwait ⊢
    subst hcd
    refine ⟨?_, rfl, rfl⟩
    have hact : isActive cfg obs = false := by
      simp [isActive, not_le.mpr hchg, not_le.mpr hdis]
    rcases hstep with h | h <;> subst h <;>
      rcases hwait with h1 | ⟨u, h1, hle⟩ <;> subst h1 <;>
      [skip; replace hle := not_lt.mpr hle; skip;
       replace hle := not_lt.mpr hle] <;>
      simp [tick, runSteps, inCooldown, waitGate, resetState,
        hconn, hlock, hact, not_lt.mpr hexp, *,
        RecoveryStep.DONE, RecoveryStep.FAILED, RecoveryStep.IDLE,
        RecoveryStep.STEP1_TIMER_TOGGLE, RecoveryStep.STEP2_START_DISCHARGE,
        RecoveryStep.STEP3_CONNECTOR_RESET, RecoveryStep.STEP4_START_CHARGE]

/-- C4 witness: at time 102, inside the success cooldown ending at 700,
the tick leaves the Done state untouched; a stuck tick at time 200 from
Idle with the attempt counter already at the maximum of two enters Failed
with the failure cooldown ending at 2000; and from the Failed marker with
its cooldown expired at 500, the tick at 600 on a connected, locked,
inactive observation returns the supervisor to Idle with the attempt
counter cleared. -/
theorem c4_done_failed_transient_via_cooldown_witness :
    tick cfgW false srvW sDoneW obsStuckW 102 = (sDoneW, []) ∧
      tick cfgW false srvW sIdleMaxW obsStuckW 200 =
        ({ sIdleMaxW with
            attempt := 3
            step := RecoveryStep.FAILED
            cooldown_until := some 2000 }, []) ∧
      (tick cfgW false srvW sFailedW obsStuckW 600 =
          (resetState sFailedW, []) ∧
        (resetState sFailedW).step = RecoveryStep.IDLE ∧
        (resetState sFailedW).attempt = 0) := by
  have h := c4_done_failed_transient_via_cooldown
  exact ⟨h.1 cfgW false srvW sDoneW obsStuckW 102 700 rfl rfl (Or.inl rfl)
      rfl (by decide),
    h.2.1 cfgW false srvW sIdleMaxW obsStuckW 200 10 rfl rfl (by decide)
      rfl rfl (by decide) (by decide) (by decide) (by decide) (by decide),
    h.2.2 cfgW false srvW sFailedW obsStuckW 600 500 rfl rfl (Or.inr rfl)
      rfl (by decide) (Or.inl rfl) (by decide) (by decide)⟩

/-- C5: with the supervisor freshly in Idle (no stuck timestamp, no
cooldown, attempt budget not exhausted, a positive stuck duration, timer
toggling unsupported) and an observation that is connected, locked,
selling more than 0.05 kW to the grid with charging and discharging below
the on-thresholds: the first tick only records when the condition began;
every tick strictly before the stuck duration has elapsed stays in Idle
and issues no action; and the first tick at or after that duration
increments the attempt counter, enters the first active step
(start-discharge), issues its button press on that same tick, and
schedules the following step. -/
theorem c5_stuck_duration_gates_first_action (cfg : RecoveryConfig)
    (srv : List (String × String)) (e : String) (s0 : RecoveryState)
    (obs : NissanObservedState) (t0 : Nat)
    (hconn : obs.connected = true) (hlock : obs.cable_locked = true)
    (hsold : mkRat 1 20 < obs.grid_sold_kw)
    (hchg : obs.charging_kw < cfg.chg_on_kw)
    (hdis : obs.discharging_kw < cfg.dis_on_kw)
    (hstep : s0.step = RecoveryStep.IDLE)
    (hsiw : s0.since_idle_wrong = none)
    (hcd : s0.cooldown_until = none)
    (hatt : s0.attempt + 1 ≤ cfg.max_attempts)
    (hdur : 0 < cfg.stuck_after)
    (hsvc : svcLookup srv "start_discharge" = some e) (hne : e ≠ "") :
    tick cfg false srv s0 obs t0 =
        ({ s0 with since_idle_wrong := some t0 }, []) ∧
      (∀ t, t < t0 + cfg.stuck_after →
        tick cfg false srv { s0 with since_idle_wrong := some t0 } obs t =
          ({ s0 with since_idle_wrong := some t0 }, [])) ∧
      (∀ t, t0 + cfg.stuck_after ≤ t →
        tick cfg false srv { s0 with since_idle_wrong := some t0 } obs t =
          ({ s0 with
              since_idle_wrong := some t0
              attempt := s0.attempt + 1
              step := RecoveryStep.STEP3_CONNECTOR_RESET
              next_action_at := some (t + cfg.wait_after_step2) },
            [RecAction.press e])) := by
  obtain ⟨st, att, siw, naa, cdu⟩ := s0
  dsimp only at hstep hsiw hcd ⊢
  subst hstep hsiw hcd
  have hact : isActive cfg obs = false := by
    simp [isActive, not_le.mpr hchg, not_le.mpr hdis]
  have hsba : shouldBeActive obs = true := by
    simp [shouldBeActive, hsold]
  refine ⟨?_, ?_, ?_⟩
  · have h0 : ¬ (t0 + cfg.stuck_after ≤ t0) := by omega
    simp [tick, inCooldown, hconn, hlock, hact, hsba, h0]
  · intro t ht
    have h0 : ¬ (t0 + cfg.stuck_after ≤ t) := by omega
    simp [tick, inCooldown, hconn, hlock, hact, hsba, h0]
  · intro t ht
    simp [tick, runSteps, inCooldown, waitGate, pressButton,
      hconn, hlock, hact, hsba, ht, not_lt.mpr hatt, hsvc, hne,
      RecoveryStep.IDLE, RecoveryStep.STEP1_TIMER_TOGGLE,
      RecoveryStep.STEP2_START_DISCHARGE, RecoveryStep.STEP3_CONNECTOR_RESET]

/-- C5 witness: from the held stuck condition that began at time 10,
the tick at 190 (stuck duration 180 elapsed) starts attempt 1, presses
start discharge, and schedules the connector reset at 250. -/
theorem c5_stuck_duration_gates_first_action_witness :
    tick cfgW false srvW
        { initialState with since_idle_wrong := some 10 } obsStuckW 190 =
      ({ initialState with
          since_idle_wrong := some 10
          attempt := 1
          step := RecoveryStep.STEP3_CONNECTOR_RESET
          next_action_at := some 250 },
        [RecAction.press "button.start_discharge"]) := by
  have h := c5_stuck_duration_gates_first_action cfgW srvW
    "button.start_discharge" initialState obsStuckW 10
    rfl rfl (by decide) (by decide) (by decide) rfl rfl rfl (by decide)
    (by decide) (by decide) (by decide)
  exact h.2.2 190 (by decide)

/-- C6: while connected and cable locked, a tick that arrives strictly
before the cooldown deadline does nothing: it issues no actuator command
and leaves the supervisor state unchanged. -/
theorem c6_cooldown_tick_is_noop (cfg : RecoveryConfig) (stt : Bool)
    (srv : List (String × String)) (s : RecoveryState)
    (obs : NissanObservedState) (now c : Nat)
    (hconn : obs.connected = true) (hlock : obs.cable_locked = true)
    (hcd : s.cooldown_until = some c) (hlt : now < c) :
    tick cfg stt srv s obs now = (s, []) := by
  unfold tick
  rw [hconn, hlock]
  simp [inCooldown, hcd, hlt]

/-- C6 witness: at time 100, before the cooldown deadline 500, the tick
leaves the Failed state untouched and issues nothing, even though the
observation satisfies the stuck condition. -/
theorem c6_cooldown_tick_is_noop_witness :
    tick cfgW false srvW sFailedW obsStuckW 100 = (sFailedW, []) :=
  c6_cooldown_tick_is_noop cfgW false srvW sFailedW obsStuckW 100 500
    rfl rfl rfl (by decide)

/-- propsOf_eq_flat: under byte-ranged property ids the property block is
the flat concatenation of the pairs id, 0. -/
theorem propsOf_eq_flat (epcs : List Nat) (h : ∀ e ∈ epcs, e < 256) :
    propsOf epcs = some (epcs.flatMap fun e => [e, 0]) := by
  induction epcs with
  | nil => simp [propsOf]
  | cons e rest ih =>
    simp [propsOf, h e (by simp),
      ih (fun x hx => h x (by simp [hx]))]

/-- C7: for byte-ranged property ids (each below 256, fewer than 256 of
them) the encoder deterministically succeeds and produces exactly the
markers 0x10 0x81, the incremented 16-bit transaction id big-endian, the
fixed source and destination object codes, service code 0x62, a property
count equal to the number of requested ids, then one pair EPC, 0x00 per
id in order. -/
theorem c7_encode_get_layout (tid : Nat) (epcs : List Nat)
    (hb : ∀ e ∈ epcs, e < 256) (hl : epcs.length < 256) :
    buildGetFrame tid epcs =
      some ([0x10, 0x81, nextTid tid / 256 % 256, nextTid tid % 256,
             0x0E, 0xF0, 0x01, 0x02, 0x7E, 0x01, 0x62, epcs.length] ++
            epcs.flatMap fun e => [e, 0]) := by
  simp [buildGetFrame, propsOf_eq_flat epcs hb, hl]

/-- C7 witness: the encoder on transaction counter 1 and the two tracked
property ids yields the concrete 16-byte GET frame. -/
theorem c7_encode_get_layout_witness :
    buildGetFrame 1 [0xD3, 0xD4] =
      some [0x10, 0x81, 0x00, 0x02, 0x0E, 0xF0, 0x01, 0x02, 0x7E, 0x01,
            0x62, 2, 0xD3, 0x00, 0xD4, 0x00] := by
  rw [c7_encode_get_layout 1 [0xD3, 0xD4] (by decide) (by decide)]
  rfl

/-- C8: the derived mode follows the three-way rule: charging present and
positive gives charging; otherwise discharging present and positive gives
discharging; otherwise idle. -/
theorem c8_mode_three_way_rule (c d : Option ℚ) :
    (∀ x, c = some x → 0 < x → deriveMode c d = "charging") ∧
      (∀ y, (c = none ∨ ∃ x, c = some x ∧ x ≤ 0) → d = some y → 0 < y →
        deriveMode c d = "discharging") ∧
      ((c = none ∨ ∃ x, c = some x ∧ x ≤ 0) →
        (d = none ∨ ∃ y, d = some y ∧ y ≤ 0) →
        deriveMode c d = "idle") := by
  refine ⟨?_, ?_, ?_⟩
  · rintro x rfl hx
    simp [deriveMode, hx]
  · rintro y hc rfl hy
    rcases hc with rfl | ⟨x, rfl, hx⟩
    · simp [deriveMode, hy]
    · simp [deriveMode, not_lt.mpr hx, hy]
  · rintro hc hd
    rcases hc with rfl | ⟨x, rfl, hx⟩
    · rcases hd with rfl | ⟨y, rfl, hy⟩
      · simp [deriveMode]
      · simp [deriveMode, not_lt.mpr hy]
    · rcases hd with rfl | ⟨y, rfl, hy⟩
      · simp [deriveMode, not_lt.mpr hx]
      · simp [deriveMode, not_lt.mpr hx, not_lt.mpr hy]

/-- C8 witness: a present positive charging value of 1 kW derives mode
charging. -/
theorem c8_mode_three_way_rule_witness :
    deriveMode (some 1) none = "charging" := by
  have h := c8_mode_three_way_rule (some 1) none
  exact h.1 1 rfl (by norm_num)

set_option maxHeartbeats 1000000 in
/-- runSteps_state_ignores_services: the state component of one step of
the step machine does not depend on the services mapping. -/
theorem runSteps_state_ignores_services (cfg : RecoveryConfig) (stt : Bool)
    (srv1 srv2 : List (String × String)) (s : RecoveryState)
    (obs : NissanObservedState) (now : Nat) :
    (runSteps cfg stt srv1 s obs now).1 =
      (runSteps cfg stt srv2 s obs now).1 := by
  unfold runSteps
  split_ifs <;> rfl

/-- C9: a logical action with no configured entity produces no service
call, while the state transition of a tick is identical under any two
services mappings, so the step machine advances and schedules exactly as
if the command had been delivered. -/
theorem c9_unmapped_button_still_advances (cfg : RecoveryConfig)
    (stt : Bool) (srv1 srv2 : List (String × String)) (s : RecoveryState)
    (obs : NissanObservedState) (now : Nat) :
    (∀ logical, svcLookup srv1 logical = none →
      pressButton srv1 logical = []) ∧
      (tick cfg stt srv1 s obs now).1 = (tick cfg stt srv2 s obs now).1 := by
  constructor
  · intro logical h
    simp [pressButton, h]
  · simp only [tick]
    split_ifs <;> first
      | rfl
      | apply runSteps_state_ignores_services

/-- C9 witness: with an empty services mapping the start-discharge press
issues nothing, and the tick at time 5 reaches the same state as under
the full mapping. -/
theorem c9_unmapped_button_still_advances_witness :
    pressButton [] "start_discharge" = [] ∧
      (tick cfgW true [] initialState obsStuckW 5).1 =
        (tick cfgW true srvW initialState obsStuckW 5).1 := by
  have h := c9_unmapped_button_still_advances cfgW true [] srvW
    initialState obsStuckW 5
  exact ⟨h.1 "start_discharge" rfl, h.2⟩

/-- deriveMode_cases: the mode derivation always lands on one of the
three mode strings. -/
theorem deriveMode_cases (c d : Option ℚ) :
    deriveMode c d = "charging" ∨ deriveMode c d = "discharging" ∨
      deriveMode c d = "idle" := by
  rcases c with _ | x <;> rcases d with _ | y <;>
    simp only [deriveMode] <;> (try split_ifs) <;> simp

/-- C10: on every input byte string the response decoder totally computes
a snapshot, and its mode field is always present and exactly one of
charging, discharging, idle, even when neither power property decodes. -/
theorem c10_mode_always_one_of_three (data : List Nat) :
    (parseRealtimeResponse data).mode = some "charging" ∨
      (parseRealtimeResponse data).mode = some "discharging" ∨
      (parseRealtimeResponse data).mode = some "idle" := by
  have h := deriveMode_cases (scanProp (bytesToHex data) '3')
    (scanProp (bytesToHex data) '4')
  rcases h with h | h | h <;> simp [parseRealtimeResponse, h]
